import Mathlib

/-!
Verification of the shuttle gateway (shuttle_broker_v4) control plane.

Shallow embedding of the Python sources under src/shuttle_module/ into Lean:
pure fragments become Lean functions, the mutable per-shuttle and per-manager
state is threaded explicitly, machine integers are Nat/Int, fallible code
returns Option/Except.  Each definition names the source function it embeds.
-/

namespace ShuttleBroker

/- ### Python string primitives

The source drives all parsing with `str.startswith`, `str.endswith`,
substring tests (`"X" in s`), `str.split(sep, 1)`, `str.strip`, `str.upper`,
`str.replace` and `str.lstrip`.  We model strings through their character
lists so that the suffix/prefix reasoning can reuse the list lemmas. -/

/-- Python `s.endswith(p)`: `p` is a suffix of `s`. -/
def strEndsWith (s p : String) : Bool := p.data.isSuffixOf s.data

/-- Python `s.startswith(p)`: `p` is a prefix of `s`. -/
def strStartsWith (s p : String) : Bool := p.data.isPrefixOf s.data

/-- Does `pat` occur as a prefix of some suffix of the list? -/
def containsAux (pat : List Char) : List Char → Bool
  | [] => pat.isPrefixOf []
  | c :: rest => pat.isPrefixOf (c :: rest) || containsAux pat rest

/-- Python `p in s`: `p` occurs as a contiguous substring of `s`. -/
def strContains (s p : String) : Bool := containsAux p.data s.data

/-- Everything after the first occurrence of `pat`, or `none` when `pat`
does not occur.  Models Python `s.split(pat, 1)[1]` (defined only when the
split produced two parts, which the callers guard by a prefix test). -/
def afterFirstAux (pat : List Char) : List Char → Option (List Char)
  | [] => none
  | c :: rest =>
    if pat.isPrefixOf (c :: rest) then some ((c :: rest).drop pat.length)
    else afterFirstAux pat rest

def pyAfterFirst (s pat : String) : Option String :=
  (afterFirstAux pat.data s.data).map List.asString

/-- Everything before the first occurrence of `pat` (the whole string when
`pat` does not occur).  Models Python `s.split(pat)[0]`. -/
def beforeFirstAux (pat : List Char) : List Char → List Char
  | [] => []
  | c :: rest =>
    if pat.isPrefixOf (c :: rest) then []
    else c :: beforeFirstAux pat rest

def pyBeforeFirst (s pat : String) : String :=
  (beforeFirstAux pat.data s.data).asString

/-- Python `s.strip()`: remove whitespace from both ends. -/
def pyStrip (s : String) : String :=
  (((s.data.dropWhile Char.isWhitespace).reverse.dropWhile
      Char.isWhitespace).reverse).asString

/-- Python `s.upper()` on the ASCII payloads the shuttles send. -/
def pyUpper (s : String) : String := (s.data.map Char.toUpper).asString

/-- Digit run of a Python decimal integer literal: at least one ASCII digit,
single underscores allowed between digits (CPython lexical rule for `int`).
The flag records whether the previous character was a digit. -/
def pyDigits : List Char → Nat → Bool → Option Nat
  | [], acc, seen => if seen then some acc else none
  | c :: rest, acc, seen =>
    if c.isDigit then pyDigits rest (acc * 10 + (c.toNat - 48)) true
    else if c = '_' && seen then
      match rest with
      | [] => none
      | d :: _ => if d.isDigit then pyDigits rest acc false else none
    else none

/-- Python `int(s)`: strip surrounding whitespace, optional sign, then a
decimal digit run.  (We model ASCII digits; the source never feeds non-ASCII
numerals.) -/
def pyIntParse (s : String) : Option Int :=
  match (pyStrip s).data with
  | '+' :: rest => (pyDigits rest 0 false).map Int.ofNat
  | '-' :: rest => (pyDigits rest 0 false).map (fun n => -(Int.ofNat n))
  | l => (pyDigits l 0 false).map Int.ofNat

/-- The ASCII digit character for `d % 10`-style values. -/
def digitChar (d : Nat) : Char :=
  match d with
  | 0 => '0' | 1 => '1' | 2 => '2' | 3 => '3' | 4 => '4'
  | 5 => '5' | 6 => '6' | 7 => '7' | 8 => '8' | _ => '9'

/-- Decimal rendering with explicit fuel (structural recursion; the fuel
`n + 1` used below always suffices since the argument shrinks by a factor
of ten each step). -/
def pyNatReprAux : Nat → Nat → List Char
  | 0, _ => []
  | fuel + 1, n =>
    if n < 10 then [digitChar n]
    else pyNatReprAux fuel (n / 10) ++ [digitChar (n % 10)]

/-- Decimal rendering of a natural number, most significant digit first;
models the digit string Python prints for a non-negative `int`. -/
def pyNatRepr (n : Nat) : List Char := pyNatReprAux (n + 1) n

/-- Left-pad a character list with `'0'` up to width `w`. -/
def leftPadZeros (l : List Char) (w : Nat) : List Char :=
  List.replicate (w - l.length) '0' ++ l

/-- Python `f-string` formatting `{v:03d}`: the minimum field width 3 counts
the sign, and padding is with zeros after the sign. -/
def pyFormat03 (n : Int) : String :=
  if n < 0 then "-" ++ (leftPadZeros (pyNatRepr n.natAbs) 2).asString
  else (leftPadZeros (pyNatRepr n.natAbs) 3).asString

/-- Python truthiness of an optional string: `None` and `""` are falsy. -/
def optStrTruthy : Option String → Bool
  | none => false
  | some s => s ≠ ""

/- ### commands.py -/

/-- `ShuttleCommandEnum` (commands.py): the commands the gateway can send.
For every member the name and the string value coincide. -/
inductive ShuttleCommandEnum
  | PALLET_IN | PALLET_OUT | FIFO | FILO | STACK_IN | STACK_OUT
  | HOME | COUNT | STATUS | BATTERY | WDH | WLH | MRCD
  deriving DecidableEq

/-- The string value of a `ShuttleCommandEnum` member. -/
def ShuttleCommandEnum.value : ShuttleCommandEnum → String
  | .PALLET_IN => "PALLET_IN"
  | .PALLET_OUT => "PALLET_OUT"
  | .FIFO => "FIFO"
  | .FILO => "FILO"
  | .STACK_IN => "STACK_IN"
  | .STACK_OUT => "STACK_OUT"
  | .HOME => "HOME"
  | .COUNT => "COUNT"
  | .STATUS => "STATUS"
  | .BATTERY => "BATTERY"
  | .WDH => "WDH"
  | .WLH => "WLH"
  | .MRCD => "MRCD"

/-- Lookup of a `ShuttleCommandEnum` member by name, `ShuttleCommandEnum[s]`
in Python (raises `KeyError`, here `none`, when no member has that name).
Member names equal member values for this enum. -/
def ShuttleCommandEnum.byName (s : String) : Option ShuttleCommandEnum :=
  match s with
  | "PALLET_IN" => some .PALLET_IN
  | "PALLET_OUT" => some .PALLET_OUT
  | "FIFO" => some .FIFO
  | "FILO" => some .FILO
  | "STACK_IN" => some .STACK_IN
  | "STACK_OUT" => some .STACK_OUT
  | "HOME" => some .HOME
  | "COUNT" => some .COUNT
  | "STATUS" => some .STATUS
  | "BATTERY" => some .BATTERY
  | "WDH" => some .WDH
  | "WLH" => some .WLH
  | "MRCD" => some .MRCD
  | _ => none

/-- `ShuttleStatus` (commands.py). -/
inductive ShuttleStatus
  | FREE | BUSY | ERROR | NOT_READY | AWAITING_MRCD | UNKNOWN
  | MOVING | LOADING | UNLOADING | CHARGING | LOW_BATTERY
  deriving DecidableEq

/-- The string value of a `ShuttleStatus` member. -/
def ShuttleStatus.value : ShuttleStatus → String
  | .FREE => "FREE"
  | .BUSY => "BUSY"
  | .ERROR => "ERROR"
  | .NOT_READY => "NOT_READY"
  | .AWAITING_MRCD => "AWAITING_MRCD"
  | .UNKNOWN => "UNKNOWN"
  | .MOVING => "MOVING"
  | .LOADING => "LOADING"
  | .UNLOADING => "UNLOADING"
  | .CHARGING => "CHARGING"
  | .LOW_BATTERY => "LOW_BATTERY"

/-- Lookup of a `ShuttleStatus` member by value, `ShuttleStatus(s)` in
Python (raises `ValueError`, here `none`, when no member has that value). -/
def ShuttleStatus.ofValue (s : String) : Option ShuttleStatus :=
  match s with
  | "FREE" => some .FREE
  | "BUSY" => some .BUSY
  | "ERROR" => some .ERROR
  | "NOT_READY" => some .NOT_READY
  | "AWAITING_MRCD" => some .AWAITING_MRCD
  | "UNKNOWN" => some .UNKNOWN
  | "MOVING" => some .MOVING
  | "LOADING" => some .LOADING
  | "UNLOADING" => some .UNLOADING
  | "CHARGING" => some .CHARGING
  | "LOW_BATTERY" => some .LOW_BATTERY
  | _ => none

/-- `CommandPriority` (commands.py): the default priority of each command
type (lower = more urgent).  Every `ShuttleCommandEnum` member has an entry,
so the `except` fallback to 10 in `ShuttleCommand.__init__` is unreachable. -/
def CommandPriority : ShuttleCommandEnum → Nat
  | .HOME => 1
  | .STATUS => 2
  | .BATTERY => 3
  | .MRCD => 4
  | .PALLET_OUT => 5
  | .PALLET_IN => 6
  | .STACK_OUT => 7
  | .STACK_IN => 8
  | .FIFO => 9
  | .FILO => 10
  | .COUNT => 11
  | .WDH => 12
  | .WLH => 13

/-- `ShuttleCommand` (commands.py), after `__init__` resolved the priority. -/
structure ShuttleCommand where
  command_type : ShuttleCommandEnum
  shuttle_id : String
  params : Option String := none
  external_id : Option String := none
  priority : Nat
  document_type : Option String := none
  cell_id : Option String := none
  stock_name : Option String := none
  deriving DecidableEq

/-- `ShuttleCommand.__init__`: an explicit priority wins, otherwise the
default priority of the command type is used. -/
def ShuttleCommand.make (ct : ShuttleCommandEnum) (sid : String)
    (params external : Option String) (prio : Option Nat)
    (doc cell stock : Option String) : ShuttleCommand :=
  { command_type := ct, shuttle_id := sid, params := params,
    external_id := external, priority := prio.getD (CommandPriority ct),
    document_type := doc, cell_id := cell, stock_name := stock }

/-- `ShuttleCommand.to_string` (commands.py lines 86-105).  A `params` value
is used only when truthy (so `params=""` behaves like no params).  For FIFO
and FILO an integer-parsing params is rendered as `{v:03d}`; otherwise the
params is rendered literally.  A trailing newline is appended when the
rendered text does not already end with one. -/
def ShuttleCommand.to_string (c : ShuttleCommand) : String :=
  let command_str :=
    if optStrTruthy c.params then
      let p := c.params.getD ""
      if c.command_type = .FIFO ∨ c.command_type = .FILO then
        match pyIntParse p with
        | some v => c.command_type.value ++ "-" ++ pyFormat03 v
        | none => c.command_type.value ++ "-" ++ p
      else c.command_type.value ++ "-" ++ p
    else c.command_type.value
  if strEndsWith command_str "\n" then command_str else command_str ++ "\n"

/-- The dictionary produced by `ShuttleCommand.to_dict` and consumed by
`ShuttleCommand.from_dict`. -/
structure CmdDict where
  command_type : String
  shuttle_id : String
  params : Option String
  external_id : Option String
  priority : Nat
  document_type : Option String
  cell_id : Option String
  stock_name : Option String
  deriving DecidableEq

/-- `ShuttleCommand.to_dict` (commands.py lines 107-118). -/
def ShuttleCommand.to_dict (c : ShuttleCommand) : CmdDict :=
  { command_type := c.command_type.value, shuttle_id := c.shuttle_id,
    params := c.params, external_id := c.external_id, priority := c.priority,
    document_type := c.document_type, cell_id := c.cell_id,
    stock_name := c.stock_name }

/-- `ShuttleCommand.from_dict` (commands.py lines 120-132): looks the command
type up by enum member name (`none` models the `KeyError` on an unknown
name) and rebuilds the command through `__init__`. -/
def ShuttleCommand.from_dict (d : CmdDict) : Option ShuttleCommand :=
  (ShuttleCommandEnum.byName d.command_type).map fun ct =>
    ShuttleCommand.make ct d.shuttle_id d.params d.external_id
      (some d.priority) d.document_type d.cell_id d.stock_name

/- ### shuttle_state.py -/

/-- `ShuttleState` (shuttle_state.py).  Timestamps (Python floats from
`time.time()`) are modeled as `Nat`; `wdh_hours`/`wlh_hours` come from
Python `int(...)` and are `Int`. -/
structure ShuttleState where
  shuttle_id : String
  status : ShuttleStatus := .UNKNOWN
  current_command : Option String := none
  last_command : Option ShuttleCommand := none
  last_command_time : Option Nat := none
  last_message : Option String := none
  last_seen : Nat
  battery_level : Option String := none
  location_data : Option String := none
  pallet_count_data : Option String := none
  wdh_hours : Option Int := none
  wlh_hours : Option Int := none
  error_code : Option String := none
  external_id : Option String := none
  document_type : Option String := none
  cell_id : Option String := none
  stock_name : Option String := none
  current_cell : Option String := none
  deriving DecidableEq

/-- A fresh `ShuttleState(shuttle_id=sid)` created at time `t0`
(`last_seen` defaults to `time.time()`; every other field to its dataclass
default). -/
def initState (sid : String) (t0 : Nat) : ShuttleState :=
  { shuttle_id := sid, last_seen := t0 }

/-- The dictionary written by `ShuttleState.to_dict`.  Note that the source
serializes every dataclass field except `current_cell`, and adds the
`last_command` key only when `last_command` is set. -/
structure StateDict where
  shuttle_id : String
  status : Option String
  current_command : Option String
  last_command_time : Option Nat
  last_message : Option String
  last_seen : Nat
  battery_level : Option String
  location_data : Option String
  pallet_count_data : Option String
  wdh_hours : Option Int
  wlh_hours : Option Int
  error_code : Option String
  external_id : Option String
  document_type : Option String
  cell_id : Option String
  stock_name : Option String
  last_command : Option CmdDict
  deriving DecidableEq

/-- `ShuttleState.to_dict` (shuttle_state.py lines 30-55).  `self.status` is
always a truthy enum member (every `ShuttleStatus` value is a non-empty
string), so the `status` key always holds the enum value.  The
`current_cell` field is not written at all. -/
def ShuttleState.to_dict (s : ShuttleState) : StateDict :=
  { shuttle_id := s.shuttle_id, status := some s.status.value,
    current_command := s.current_command,
    last_command_time := s.last_command_time, last_message := s.last_message,
    last_seen := s.last_seen, battery_level := s.battery_level,
    location_data := s.location_data,
    pallet_count_data := s.pallet_count_data, wdh_hours := s.wdh_hours,
    wlh_hours := s.wlh_hours, error_code := s.error_code,
    external_id := s.external_id, document_type := s.document_type,
    cell_id := s.cell_id, stock_name := s.stock_name,
    last_command := s.last_command.map ShuttleCommand.to_dict }

/-- `ShuttleState.from_dict` (shuttle_state.py lines 57-81): a truthy status
string is converted through `ShuttleStatus(...)` with `UNKNOWN` on
`ValueError`; `last_command` is popped and rebuilt separately; the dict has
no `current_cell` key, so the dataclass default `None` applies.  The result
is `none` when Python would have produced a value outside our typed state:
a missing or empty status string leaves a non-enum in the `status` field,
and an unknown command name raises `KeyError`. -/
def ShuttleState.from_dict (d : StateDict) : Option ShuttleState :=
  let stOpt : Option ShuttleStatus :=
    match d.status with
    | none => none
    | some v => if v = "" then none else some ((ShuttleStatus.ofValue v).getD .UNKNOWN)
  match stOpt with
  | none => none
  | some st =>
    let base : ShuttleState :=
      { shuttle_id := d.shuttle_id, status := st,
        current_command := d.current_command, last_command := none,
        last_command_time := d.last_command_time,
        last_message := d.last_message, last_seen := d.last_seen,
        battery_level := d.battery_level, location_data := d.location_data,
        pallet_count_data := d.pallet_count_data, wdh_hours := d.wdh_hours,
        wlh_hours := d.wlh_hours, error_code := d.error_code,
        external_id := d.external_id, document_type := d.document_type,
        cell_id := d.cell_id, stock_name := d.stock_name,
        current_cell := none }
    match d.last_command with
    | none => some base
    | some cd => (ShuttleCommand.from_dict cd).map
        (fun c => { base with last_command := some c })

/- ### shuttle_client.py: inbound message handling -/

/-- A simplified decimal parse for the battery threshold test: optional
sign, digits, optional fractional digits; result `(mantissa, scale)` with
value `mantissa / 10 ^ scale`.  Models Python `float(s)` on the decimal
literals the shuttles report (the source never feeds exponent or inf/nan
forms, and the < 20 comparison below is exact on decimals). -/
def pyDecimalParse (s : String) : Option (Int × Nat) :=
  let core : List Char → Option (Nat × Nat) := fun l =>
    let intPart := l.takeWhile Char.isDigit
    let rest := l.dropWhile Char.isDigit
    match rest with
    | [] =>
      if intPart = [] then none
      else some (intPart.foldl (fun a c => a * 10 + (c.toNat - 48)) 0, 0)
    | '.' :: frac =>
      if frac.all Char.isDigit ∧ (intPart ≠ [] ∨ frac ≠ []) then
        some ((intPart ++ frac).foldl (fun a c => a * 10 + (c.toNat - 48)) 0,
              frac.length)
      else none
    | _ => none
  match (pyStrip s).data with
  | '+' :: rest => (core rest).map (fun p => (Int.ofNat p.1, p.2))
  | '-' :: rest => (core rest).map (fun p => (-(Int.ofNat p.1), p.2))
  | l => (core l).map (fun p => (Int.ofNat p.1, p.2))

/-- `ShuttleClient._process_message` (shuttle_client.py lines 183-294): the
first-match chain of `startswith`/`endswith` branches that folds an inbound
line into the shuttle state.  Lines matching no branch leave the state
unchanged. -/
def processMessage (s : ShuttleState) (message : String) : ShuttleState :=
  if strEndsWith message "_STARTED" then
    if strContains message "PALLET_IN" then { s with status := .LOADING }
    else if strContains message "PALLET_OUT" then { s with status := .UNLOADING }
    else if strContains message "HOME" then { s with status := .MOVING }
    else { s with status := .BUSY }
  else if strEndsWith message "_DONE" then
    { s with status := .FREE, current_command := none }
  else if strEndsWith message "_ABORT" then
    { s with status := .ERROR, error_code := some message,
             current_command := none }
  else if strStartsWith message "LOCATION=" then
    let location_data := (pyAfterFirst message "=").getD ""
    let s1 := { s with location_data := some location_data, status := .FREE,
                       current_command := none }
    if strContains location_data "CELL:" then
      let cell_info :=
        pyStrip (pyBeforeFirst ((pyAfterFirst location_data "CELL:").getD "") ",")
      { s1 with current_cell := some cell_info }
    else s1
  else if strStartsWith message "COUNT_" && strContains message "=" then
    { s with pallet_count_data := some message, status := .FREE,
             current_command := none }
  else if strStartsWith message "STATUS=" then
    let status_val := pyUpper ((pyAfterFirst message "=").getD "")
    let newStatus :=
      match status_val with
      | "FREE" => ShuttleStatus.FREE
      | "CARGO" => ShuttleStatus.BUSY
      | "BUSY" => ShuttleStatus.BUSY
      | "NOT_READY" => ShuttleStatus.NOT_READY
      | "MOVING" => ShuttleStatus.MOVING
      | "LOADING" => ShuttleStatus.LOADING
      | "UNLOADING" => ShuttleStatus.UNLOADING
      | "CHARGING" => ShuttleStatus.CHARGING
      | "LOW_BATTERY" => ShuttleStatus.LOW_BATTERY
      | _ => ShuttleStatus.UNKNOWN
    let s1 := { s with status := newStatus }
    if newStatus = .FREE ∨ newStatus = .NOT_READY ∨ newStatus = .UNKNOWN then
      { s1 with current_command := none }
    else s1
  else if strStartsWith message "BATTERY=" then
    let level_str := (pyAfterFirst message "=").getD ""
    let s1 := { s with battery_level := some level_str }
    let cleaned :=
      ((level_str.data.filter (fun c => c ≠ '%')).dropWhile
        (fun c => c = '<')).asString
    match pyDecimalParse cleaned with
    | some (m, sc) =>
      if m < 20 * (10 : Int) ^ sc then { s1 with status := .LOW_BATTERY }
      else s1
    | none => s1
  else if strStartsWith message "WDH=" then
    match pyIntParse ((pyAfterFirst message "=").getD "") with
    | some h => { s with wdh_hours := some h }
    | none => s
  else if strStartsWith message "WLH=" then
    match pyIntParse ((pyAfterFirst message "=").getD "") with
    | some h => { s with wlh_hours := some h }
    | none => s
  else if strStartsWith message "F_CODE=" then
    { s with error_code := some message, status := .ERROR,
             current_command := none }
  else s

/-- `ShuttleListener.send_message` newline handling (shuttle_listener.py
lines 196-198): append a newline when the payload lacks one.  The result is
the wire line written to the link. -/
def wireLine (message : String) : String :=
  if strEndsWith message "\n" then message else message ++ "\n"

/-- `ShuttleClient._process_message_from_listener` (shuttle_client.py lines
308-332): stamp `last_seen` and `last_message`, fold the line through
`_process_message`, and reply `MRCD` through the listener link unless the
line is the literal `MRCD` token.  Returns the new state and the list of
wire lines sent back on to the link (the registered extra message handlers
list is empty for a freshly built client and sends nothing). -/
def processFromListener (s : ShuttleState) (message : String) (now : Nat) :
    ShuttleState × List String :=
  let s1 := { s with last_seen := now, last_message := some message }
  let s2 := processMessage s1 message
  (s2, if message = ShuttleCommandEnum.MRCD.value then []
       else [wireLine ShuttleCommandEnum.MRCD.value])

/- ### shuttle_client.py: outbound command path -/

/-- Outcome of the buffered write plus `drain()` under
`tcp_write_timeout` in `ShuttleClient.send_command`. -/
inductive WriteOutcome
  | ok
  | timeout
  | err (msg : String)
  deriving DecidableEq

/-- Outcome of `ShuttleClient.connect` dialling through the connection
manager. -/
inductive ConnectOutcome
  | ok
  | timeout
  | refused
  | err (msg : String)
  deriving DecidableEq

/-- A `ShuttleClient` as far as the command path observes it: its state
record and whether `self.connected` (and hence `self.writer`) is set. -/
structure ClientState where
  state : ShuttleState
  connected : Bool
  deriving DecidableEq

/-- The text of the `AttributeError` Python raises when
`self.writer.write` runs with `self.writer = None` (possible when the
STATUS probe inside `connect` tore the link down again). -/
def noneWriterMsg : String := "NoneType object has no attribute write"

/-- The shared shape of every transport-error branch in shuttle_client.py:
`self.state.status = ShuttleStatus.ERROR; self.state.error_code = code`. -/
def errState (s : ShuttleState) (code : String) : ShuttleState :=
  { s with status := .ERROR, error_code := some code }

/-- The `try`/`except` body of `ShuttleClient.send_command` (shuttle_client.py
lines 101-128), entered after the connect guard.  On a successful write:
`last_command` and `last_command_time` are stamped and every command except
MRCD drives the status to BUSY.  On `asyncio.TimeoutError`: status ERROR,
`error_code = "SEND_TIMEOUT"`, and the connection is NOT closed.  On any
other exception: status ERROR, `error_code = "SEND_ERROR: ..."`, and
`disconnect()` tears the link down.  When `self.writer` is `None` the first
statement of the `try` raises `AttributeError`, landing in the generic
branch. -/
def writeStep (c : ClientState) (cmd : ShuttleCommand) (now : Nat)
    (w : WriteOutcome) : Bool × ClientState :=
  if c.connected = false then
    (false, { c with
              connected := false
              state := errState c.state ("SEND_ERROR: " ++ noneWriterMsg) })
  else
    match w with
    | .ok =>
      let st1 := { c.state with
                   last_command := some cmd
                   last_command_time := some now }
      let st2 := if cmd.command_type ≠ ShuttleCommandEnum.MRCD then
                   { st1 with status := .BUSY }
                 else st1
      (true, { c with state := st2 })
    | .timeout =>
      (false, { c with state := errState c.state "SEND_TIMEOUT" })
    | .err m =>
      (false, { c with
                connected := false
                state := errState c.state ("SEND_ERROR: " ++ m) })

/-- `ShuttleClient.send_command` (shuttle_client.py lines 94-128).  When not
connected it first dials (`connect`, lines 29-73): a dial failure records a
`CONNECTION_*` error code and returns failure; a successful dial fires the
STATUS probe of `_request_shuttle_status`, whose own failure is swallowed.
Then the command itself is written via `writeStep`.  `co` is the dial
outcome, `probeW` the write outcome of the STATUS probe, `w` the write
outcome of the command itself. -/
def clientSendCommand (c : ClientState) (cmd : ShuttleCommand) (now : Nat)
    (co : ConnectOutcome) (probeW w : WriteOutcome) : Bool × ClientState :=
  if c.connected then writeStep c cmd now w
  else
    match co with
    | .timeout =>
      (false, { c with state := errState c.state "CONNECTION_TIMEOUT" })
    | .refused =>
      (false, { c with state := errState c.state "CONNECTION_REFUSED" })
    | .err m =>
      (false, { c with state := errState c.state ("CONNECTION_ERROR: " ++ m) })
    | .ok =>
      let c1 : ClientState := { c with connected := true }
      let probe := writeStep c1
        (ShuttleCommand.make .STATUS c.state.shuttle_id none none none
          none none none) now probeW
      writeStep probe.2 cmd now w

/- ### shuttle_manager.py -/

/-- First-match association-list lookup; models reading a Python dict (its
keys are unique). -/
def alGet {β : Type} (l : List (String × β)) (k : String) : Option β :=
  match l with
  | [] => none
  | (k1, v) :: rest => if k1 = k then some v else alGet rest k

/-- A command registry record (`ShuttleManager.command_registry` values). -/
structure RegRecord where
  command : ShuttleCommand
  status : String
  timestamp : Nat
  completed_at : Option Nat := none
  cancelled_at : Option Nat := none
  error : Option String := none
  deriving DecidableEq

/-- In-place mutation of the record stored under `cid`; models
`self.command_registry[cid][...] = ...` (dict keys are unique, so mapping
over all entries touches exactly the one record). -/
def regUpdate (reg : List (String × RegRecord)) (cid : String)
    (f : RegRecord → RegRecord) : List (String × RegRecord) :=
  match reg with
  | [] => []
  | (k, v) :: rest =>
    (if k = cid then (k, f v) else (k, v)) :: regUpdate rest cid f

/-- An entry of the per-shuttle `asyncio.PriorityQueue`:
`(priority, command_id, command)`. -/
abbrev QueueEntry := Nat × String × ShuttleCommand

/-- Heap pop order of the priority queue: lexicographic on
`(priority, command_id)` (the third tuple component is compared only on a
full tie and `ShuttleCommand.__lt__` then also ties). -/
def entryLE (a b : QueueEntry) : Bool :=
  decide (a.1 < b.1) ||
    (decide (a.1 = b.1) &&
      (decide (a.2.1 < b.2.1) || decide (a.2.1 = b.2.1)))

/-- Insert an entry into the queue, kept sorted in pop order; models
`queue.put(...)` on the priority heap (observed through its pop order). -/
def queuePut (q : List QueueEntry) (e : QueueEntry) : List QueueEntry :=
  match q with
  | [] => [e]
  | x :: xs => if entryLE x e then x :: queuePut xs e else e :: x :: xs

/-- The scheduler state for one shuttle: its bounded priority queue, the
(global) command registry, and the configured
`command_queue_max_size`. -/
structure MState where
  queue : List QueueEntry
  registry : List (String × RegRecord)
  maxsize : Nat
  deriving DecidableEq

/-- Result of `ShuttleManager.send_command`. -/
inductive SubmitResult
  | completed (cid : String) (m : MState)
  | failedFast (cid : String) (m : MState)
  | queued (cid : String) (m : MState)
  | blocked
  deriving DecidableEq

/-- `ShuttleManager.send_command` (shuttle_manager.py lines 69-165) for an
existing shuttle, with the generated command ID `cid` and the success of
`_process_command` abstracted as `procSuccess`.  HOME and priority <= 4
commands are processed immediately under the lock and recorded
completed/failed.  Other commands go through `await queue.put(...)`:
`asyncio.PriorityQueue.put` WAITS for a free slot when the queue is full
(`QueueFull` is only raised by `put_nowait`), so the
`except asyncio.QueueFull` branch at lines 154-165 - the one that would
record `failed` / `error="Queue full"` and raise - is unreachable;
`SubmitResult.blocked` marks that suspension: no registry record is written
and the call does not return. -/
def managerSendCommand (m : MState) (cmd : ShuttleCommand) (cid : String)
    (now : Nat) (procSuccess : Bool) : SubmitResult :=
  if cmd.command_type = ShuttleCommandEnum.HOME then
    if procSuccess then
      .completed cid { m with registry :=
        (cid, { command := cmd, status := "completed", timestamp := now,
                completed_at := some now }) :: m.registry }
    else
      .failedFast cid { m with registry :=
        (cid, { command := cmd, status := "failed", timestamp := now,
                error := some "Failed to process command" }) :: m.registry }
  else if cmd.priority ≤ 4 then
    if procSuccess then
      .completed cid { m with registry :=
        (cid, { command := cmd, status := "completed", timestamp := now,
                completed_at := some now }) :: m.registry }
    else
      .failedFast cid { m with registry :=
        (cid, { command := cmd, status := "failed", timestamp := now,
                error := some "Failed to process command" }) :: m.registry }
  else if m.queue.length < m.maxsize then
    .queued cid { m with
      queue := queuePut m.queue (cmd.priority, cid, cmd),
      registry := (cid, { command := cmd, status := "queued",
                          timestamp := now }) :: m.registry }
  else .blocked

/-- The two drain loops of `ShuttleManager.cancel_command` (lines 192-211):
pop every entry of the queue in order, re-inserting all but the target ID
into a scratch priority queue, then pop the scratch back into the (now
empty) main queue.  Popping a sorted queue enumerates it front to back, so
each loop is a fold of `queuePut` over the popped list. -/
def cancelDrain (q : List QueueEntry) (cid : String) : List QueueEntry :=
  let temp := q.foldl
    (fun acc e => if e.2.1 = cid then acc else queuePut acc e) []
  temp.foldl (fun acc e => queuePut acc e) []

/-- `ShuttleManager.cancel_command` (shuttle_manager.py lines 167-218).  A
missing registry record or one not in status `queued` returns false and
leaves everything unchanged; otherwise the entry is drained out of the
queue and the record is marked `cancelled` with a `cancelled_at` stamp. -/
def managerCancelCommand (m : MState) (cid : String) (now : Nat) :
    Bool × MState :=
  match alGet m.registry cid with
  | none => (false, m)
  | some r =>
    if r.status ≠ "queued" then (false, m)
    else
      (true, { m with
               queue := cancelDrain m.queue cid
               registry := regUpdate m.registry cid (fun rec =>
                 { rec with status := "cancelled", cancelled_at := some now }) })

/-- One pass of `ShuttleManager._command_processor_worker` (lines 289-343)
over one FREE shuttle whose lock is free: `get_nowait` pops the least queue
entry; a record already `cancelled` is dropped without dispatching;
otherwise the record is marked `processing`, the command is dispatched
(success abstracted as `procSuccess`) and the record marked
`completed`/`failed` with `completed_at`.  Returns the dispatched
`(command_id, command)` if any. -/
def workerStep (m : MState) (procSuccess : Bool) (now : Nat) :
    Option (String × ShuttleCommand) × MState :=
  match m.queue with
  | [] => (none, m)
  | e :: rest =>
    let cid := e.2.1
    match alGet m.registry cid with
    | some r =>
      if r.status = "cancelled" then (none, { m with queue := rest })
      else
        let reg1 := regUpdate m.registry cid
          (fun rec => { rec with status := "processing" })
        let reg2 := regUpdate reg1 cid
          (fun rec => { rec with
            status := if procSuccess then "completed" else "failed",
            completed_at := some now })
        (some (cid, e.2.2), { m with queue := rest, registry := reg2 })
    | none => (some (cid, e.2.2), { m with queue := rest })

/-- Iterate `workerStep` `n` times, collecting the IDs of the dispatched
commands. -/
def workerRun : Nat → MState → Bool → Nat → List String × MState
  | 0, m, _, _ => ([], m)
  | n + 1, m, ps, now =>
    let step := workerStep m ps now
    let rest := workerRun n step.2 ps now
    ((match step.1 with | some (cid, _) => [cid] | none => []) ++ rest.1,
     rest.2)

/- ### shuttle_manager.py: get_free_shuttle -/

/-- The class attributes of the `ShuttleCommand` CLASS (commands.py line 54)
that `get_free_shuttle` tries to read.  `shuttle_manager.py` imports
`ShuttleCommand` - the command class, not `ShuttleCommandEnum` - and that
class defines no member named `HOME`, `STATUS` or `MRCD`, so the list is
empty. -/
def shuttleCommandClassAttrs : List (String × String) := []

/-- Python attribute lookup `ShuttleCommand.<name>` on the command class:
an absent attribute raises `AttributeError`. -/
def classAttr (name : String) : Except String String :=
  match alGet shuttleCommandClassAttrs name with
  | some v => .ok v
  | none => .error ("AttributeError: type object ShuttleCommand has no attribute " ++ name)

/-- The scan of `config.stock_to_shuttle[stock]` in `get_free_shuttle`
(lines 272-287): skip IDs not present in `self.shuttles`; for
high-priority commands return the first remaining ID regardless of status,
otherwise the first whose status is FREE. -/
def firstEligible (shuttles : List (String × ShuttleState))
    (highPriority : Bool) : List String → Option String
  | [] => none
  | sid :: rest =>
    match alGet shuttles sid with
    | none => firstEligible shuttles highPriority rest
    | some st =>
      if highPriority then some sid
      else if st.status = .FREE then some sid
      else firstEligible shuttles highPriority rest

/-- `ShuttleManager.get_free_shuttle` (shuttle_manager.py lines 231-287).
`shuttles` is the manager registry with each shuttle given by its current
state; `stockToShuttle` the configured index.  The first executed statement
of the selection logic evaluates `ShuttleCommand.HOME.value` on the command
CLASS (see `shuttleCommandClassAttrs`), so the attribute lookup decides the
outcome before any branch can run. -/
def getFreeShuttle (shuttles : List (String × ShuttleState))
    (stockToShuttle : List (String × List String)) (stock : String)
    (cellId command externalId : Option String) :
    Except String (Option String) :=
  match classAttr "HOME" with
  | .error e => .error e
  | .ok homeVal =>
    if command = some homeVal && optStrTruthy externalId then
      match shuttles.find? (fun p => p.2.external_id = externalId) with
      | some p => .ok (some p.1)
      | none => .ok none
    else
      match classAttr "STATUS" with
      | .error e => .error e
      | .ok statusVal =>
        match classAttr "MRCD" with
        | .error e => .error e
        | .ok mrcdVal =>
          let ids := (alGet stockToShuttle stock).getD []
          let highPriority := command = some homeVal ∨
            command = some statusVal ∨ command = some mrcdVal
          .ok (firstEligible shuttles highPriority ids)

/- ### connection_manager.py -/

/-- The `ConnectionManager` maps (connection_manager.py lines 13-18):
readers and writers are identified by opaque numeric handles. -/
structure CMState where
  connections : List (String × Nat)
  readers : List (String × Nat)
  connection_times : List (String × Nat)
  connecting : List String
  deriving DecidableEq

/-- Result of `ConnectionManager.get_connection`. -/
inductive GetConnResult
  | ok (reader writer : Nat)
  | failed (e : String)
  | waiting
  deriving DecidableEq

/-- `ConnectionManager.get_connection` (connection_manager.py lines 20-59),
run under `self.lock`; `dial` is the outcome of
`asyncio.open_connection` under the timeout.  If both maps already hold the
ID, the registered pair is returned without dialling.  If the ID is in the
`connecting` set, the source awaits the other dial; sequentially under the
lock that cannot complete, and the model returns `.waiting`.  Otherwise the
ID is added to `connecting`, the dial runs, and `connecting` is restored in
the `finally`; on success all three maps gain the entry, on failure the
exception propagates with the maps untouched.  The final `Bool` reports
whether a dial was attempted. -/
def getConnection (st : CMState) (sid : String)
    (dial : Except String (Nat × Nat)) (now : Nat) :
    GetConnResult × CMState × Bool :=
  match alGet st.connections sid, alGet st.readers sid with
  | some w, some r => (.ok r w, st, false)
  | _, _ =>
    if sid ∈ st.connecting then (.waiting, st, false)
    else
      match dial with
      | .ok (r, w) =>
        (.ok r w,
         { st with readers := (sid, r) :: st.readers,
                   connections := (sid, w) :: st.connections,
                   connection_times := (sid, now) :: st.connection_times },
         true)
      | .error e => (.failed e, st, true)

/- ### Supporting lemmas -/

/-- A line ending in `_DONE` cannot end in `_STARTED` (the suffixes end in
different characters), so the second branch of `processMessage` really is
reached. -/
theorem endsWith_DONE_not_STARTED (msg : String)
    (h : strEndsWith msg "_DONE" = true) :
    strEndsWith msg "_STARTED" = false := by
  unfold strEndsWith at h ⊢
  rw [List.isSuffixOf_iff_suffix] at h
  by_contra hc
  simp only [Bool.not_eq_false, List.isSuffixOf_iff_suffix] at hc
  rcases List.suffix_or_suffix_of_suffix h hc with h1 | h1
  · exact absurd (List.IsSuffix.sublist h1) (by decide)
  · exact absurd (List.IsSuffix.sublist h1) (by decide)

/- ### C4: auto-acknowledgement -/

/-- C4.  For every inbound line handed to the listener handler of the state
engine: a line other than the literal `MRCD` token is answered by exactly
one `MRCD` wire line (with its newline), and the line `MRCD` is answered by
none, whatever the current state and time, including lines matching no
parsing rule. -/
theorem ack_exactly_one_MRCD (s : ShuttleState) (msg : String) (now : Nat) :
    (processFromListener s msg now).2 =
      if msg = "MRCD" then [] else ["MRCD\n"] := by
  rfl

/- ### C5: progress lines -/

/-- C5.  A line ending in `_STARTED` drives the status to BUSY, except that
a line containing `PALLET_IN` gives LOADING, else one containing
`PALLET_OUT` gives UNLOADING, else one containing `HOME` gives MOVING (the
source checks the three markers in that order).  A line ending in `_DONE`
drives the status to FREE and clears `current_command`.  In particular
`PALLET_IN_STARTED` then `PALLET_IN_DONE` drives the status through LOADING
to FREE with `current_command` cleared. -/
theorem progress_line_transitions :
    (∀ (s : ShuttleState) (msg : String),
      strEndsWith msg "_STARTED" = true →
      (processMessage s msg).status =
        (if strContains msg "PALLET_IN" then ShuttleStatus.LOADING
         else if strContains msg "PALLET_OUT" then ShuttleStatus.UNLOADING
         else if strContains msg "HOME" then ShuttleStatus.MOVING
         else ShuttleStatus.BUSY)) ∧
    (∀ (s : ShuttleState) (msg : String),
      strEndsWith msg "_DONE" = true →
      (processMessage s msg).status = ShuttleStatus.FREE ∧
      (processMessage s msg).current_command = none) ∧
    (∀ (s : ShuttleState) (t1 t2 : Nat),
      (processFromListener s "PALLET_IN_STARTED" t1).1.status =
        ShuttleStatus.LOADING ∧
      (processFromListener (processFromListener s "PALLET_IN_STARTED" t1).1
          "PALLET_IN_DONE" t2).1.status = ShuttleStatus.FREE ∧
      (processFromListener (processFromListener s "PALLET_IN_STARTED" t1).1
          "PALLET_IN_DONE" t2).1.current_command = none) := by
  refine ⟨?_, ?_, ?_⟩
  · intro s msg h
    simp only [processMessage, h, if_true]
    by_cases h1 : strContains msg "PALLET_IN" <;>
      by_cases h2 : strContains msg "PALLET_OUT" <;>
        by_cases h3 : strContains msg "HOME" <;>
          simp [h1, h2, h3]
  · intro s msg h
    have h0 := endsWith_DONE_not_STARTED msg h
    simp [processMessage, h, h0]
  · intro s t1 t2
    refine ⟨rfl, rfl, rfl⟩

/-- Witness for C5 at a concrete input: `PALLET_OUT_STARTED` contains
neither `PALLET_IN` nor `HOME` but contains `PALLET_OUT`, so the status
becomes UNLOADING, and `STACK_IN_DONE` frees the shuttle. -/
theorem progress_line_transitions_witness :
    (processMessage (initState "s1" 0) "PALLET_OUT_STARTED").status =
      ShuttleStatus.UNLOADING ∧
    (processMessage (initState "s1" 0) "STACK_IN_DONE").status =
      ShuttleStatus.FREE := by
  constructor
  · have h := progress_line_transitions.1 (initState "s1" 0)
      "PALLET_OUT_STARTED" (by decide)
    rw [h]
    decide
  · exact (progress_line_transitions.2.1 (initState "s1" 0)
      "STACK_IN_DONE" (by decide)).1

/- ### C8: FIFO / FILO wire form -/

theorem digitChar_ne_newline (d : Nat) : digitChar d ≠ '\n' := by
  unfold digitChar
  split <;> decide

theorem pyNatRepr_concat (n : Nat) :
    ∃ l d, pyNatRepr n = l ++ [digitChar d] := by
  unfold pyNatRepr pyNatReprAux
  split
  · exact ⟨[], n, rfl⟩
  · exact ⟨_, n % 10, rfl⟩

theorem not_endsWith_newline (s : String) (c : Char) (hc : c ≠ '\n')
    (h : s.data.getLast? = some c) : strEndsWith s "\n" = false := by
  unfold strEndsWith
  by_contra h2
  simp only [Bool.not_eq_false, List.isSuffixOf_iff_suffix] at h2
  obtain ⟨t, ht⟩ := h2
  rw [← ht, List.getLast?_concat] at h
  exact hc (Option.some.inj h).symm

/-- The `{v:03d}` rendering never ends in a newline, whatever precedes it. -/
theorem append_pyFormat03_not_newline (pre : String) (n : Int) :
    strEndsWith (pre ++ pyFormat03 n) "\n" = false := by
  obtain ⟨l, d, hld⟩ := pyNatRepr_concat n.natAbs
  unfold pyFormat03
  split
  · refine not_endsWith_newline _ (digitChar d) (digitChar_ne_newline d) ?_
    show (pre.data ++ ("-" ++ (leftPadZeros (pyNatRepr n.natAbs) 2).asString).data).getLast? = _
    have hsh : pre.data ++ ("-" ++ (leftPadZeros (pyNatRepr n.natAbs) 2).asString).data =
        (pre.data ++ '-' ::
          (List.replicate (2 - (pyNatRepr n.natAbs).length) '0' ++ l)) ++
          [digitChar d] := by
      simp [String.data_append, leftPadZeros, List.asString, hld]
    rw [hsh, List.getLast?_concat]
  · refine not_endsWith_newline _ (digitChar d) (digitChar_ne_newline d) ?_
    show (pre.data ++ (leftPadZeros (pyNatRepr n.natAbs) 3).asString.data).getLast? = _
    have hsh : pre.data ++ (leftPadZeros (pyNatRepr n.natAbs) 3).asString.data =
        (pre.data ++
          (List.replicate (3 - (pyNatRepr n.natAbs).length) '0' ++ l)) ++
          [digitChar d] := by
      simp [leftPadZeros, List.asString, hld]
    rw [hsh, List.getLast?_concat]

/-- C8 counterexample.  The claim reads every given `params` string that
does not parse as an integer as rendered `<TYPE>-<params>\n`.  The code
instead treats a falsy (empty) params as absent, and appends the newline
only when the rendered text does not already end with one: `params=""`
yields `FIFO\n` (not `FIFO-\n`), and `params="A\n"` yields `FIFO-A\n` (not
`FIFO-A\n\n`). -/
theorem fifo_wire_form_counterexample :
    (ShuttleCommand.make .FIFO "s1" (some "") none none none none
        none).to_string = "FIFO\n" ∧
    "FIFO\n" ≠ "FIFO-" ++ "" ++ "\n" ∧
    (ShuttleCommand.make .FIFO "s1" (some "A\n") none none none none
        none).to_string = "FIFO-A\n" ∧
    "FIFO-A\n" ≠ "FIFO-" ++ "A\n" ++ "\n" := by
  exact ⟨by decide, by decide, by decide, by decide⟩

/-- C8 (amended).  For every FIFO or FILO command: a params string that
parses as an integer `n` under Python `int(...)` is rendered
`<TYPE>-` ++ `{n:03d}` ++ newline; a non-empty params string that does not
parse is rendered literally, with a newline appended unless the params
already ends in one; an absent or empty params yields `<TYPE>\n`. -/
theorem fifo_filo_wire_form (c : ShuttleCommand)
    (hty : c.command_type = ShuttleCommandEnum.FIFO ∨
           c.command_type = ShuttleCommandEnum.FILO) :
    (∀ s n, c.params = some s → pyIntParse s = some n →
      c.to_string = c.command_type.value ++ "-" ++ pyFormat03 n ++ "\n") ∧
    (∀ s, c.params = some s → s ≠ "" → pyIntParse s = none →
      c.to_string = wireLine (c.command_type.value ++ "-" ++ s)) ∧
    ((c.params = none ∨ c.params = some "") →
      c.to_string = c.command_type.value ++ "\n") := by
  refine ⟨?_, ?_, ?_⟩
  · intro s n hs hp
    have hs0 : s ≠ "" := by
      intro he
      have hnone : pyIntParse "" = none := by decide
      rw [he, hnone] at hp
      exact Option.noConfusion hp
    have htv : (c.command_type = ShuttleCommandEnum.FIFO ∨
        c.command_type = ShuttleCommandEnum.FILO) = True := by
      simp [hty]
    unfold ShuttleCommand.to_string
    rw [hs]
    simp only [optStrTruthy, Option.getD_some, htv, if_true, decide_eq_true hs0,
      ne_eq, hp]
    rw [append_pyFormat03_not_newline (c.command_type.value ++ "-") n]
    simp
  · intro s hs hs0 hp
    have htv : (c.command_type = ShuttleCommandEnum.FIFO ∨
        c.command_type = ShuttleCommandEnum.FILO) = True := by
      simp [hty]
    unfold ShuttleCommand.to_string
    rw [hs]
    simp only [optStrTruthy, Option.getD_some, htv, if_true, decide_eq_true hs0,
      ne_eq, hp]
    rfl
  · intro hs
    rcases hs with hs | hs <;>
      rcases hty with h | h <;>
        ·  unfold ShuttleCommand.to_string
           rw [hs, h]
           decide

/-- Witness for C8 at the spec scenario: `FIFO` with params `7` writes
`FIFO-007\n`. -/
theorem fifo_filo_wire_form_witness :
    (ShuttleCommand.make .FIFO "s1" (some "7") none none none none
        none).to_string = "FIFO-007\n" := by
  have h := (fifo_filo_wire_form
    (ShuttleCommand.make .FIFO "s1" (some "7") none none none none none)
    (Or.inl rfl)).1 "7" 7 rfl (by decide)
  rw [h]
  decide

/- ### C10: frame property of unmatched lines -/

/-- C10 counterexample.  The literal line `MRCD` matches none of the
recognized patterns, yet the listener handler sends no acknowledgement for
it - while the claim asserts every unmatched line is still acknowledged
with MRCD. -/
theorem unmatched_line_counterexample :
    strEndsWith "MRCD" "_STARTED" = false ∧
    strEndsWith "MRCD" "_DONE" = false ∧
    strEndsWith "MRCD" "_ABORT" = false ∧
    strStartsWith "MRCD" "LOCATION=" = false ∧
    (strStartsWith "MRCD" "COUNT_" && strContains "MRCD" "=") = false ∧
    strStartsWith "MRCD" "STATUS=" = false ∧
    strStartsWith "MRCD" "BATTERY=" = false ∧
    strStartsWith "MRCD" "WDH=" = false ∧
    strStartsWith "MRCD" "WLH=" = false ∧
    strStartsWith "MRCD" "F_CODE=" = false ∧
    (processFromListener (initState "s1" 0) "MRCD" 5).2 = [] := by
  decide

/-- C10 (amended).  A line matching none of the recognized patterns changes
only `last_seen` and `last_message`; every other state field is untouched,
and the line is acknowledged with one `MRCD` wire line unless the line is
itself the literal `MRCD` token, which receives no acknowledgement. -/
theorem unmatched_line_frame (s : ShuttleState) (msg : String) (now : Nat)
    (h1 : strEndsWith msg "_STARTED" = false)
    (h2 : strEndsWith msg "_DONE" = false)
    (h3 : strEndsWith msg "_ABORT" = false)
    (h4 : strStartsWith msg "LOCATION=" = false)
    (h5 : (strStartsWith msg "COUNT_" && strContains msg "=") = false)
    (h6 : strStartsWith msg "STATUS=" = false)
    (h7 : strStartsWith msg "BATTERY=" = false)
    (h8 : strStartsWith msg "WDH=" = false)
    (h9 : strStartsWith msg "WLH=" = false)
    (h10 : strStartsWith msg "F_CODE=" = false) :
    processFromListener s msg now =
      ({ s with last_seen := now, last_message := some msg },
       if msg = "MRCD" then [] else ["MRCD\n"]) := by
  unfold processFromListener processMessage
  simp [h1, h2, h3, h4, h5, h6, h7, h8, h9, h10]
  rfl

/-- Witness for C10 at the unmatched line `HELLO`: only the two listener
fields change and one `MRCD` acknowledgement is emitted. -/
theorem unmatched_line_frame_witness :
    processFromListener (initState "s1" 0) "HELLO" 5 =
      ({ initState "s1" 0 with last_seen := 5, last_message := some "HELLO" },
       ["MRCD\n"]) := by
  have h := unmatched_line_frame (initState "s1" 0) "HELLO" 5 (by decide)
    (by decide) (by decide) (by decide) (by decide) (by decide) (by decide)
    (by decide) (by decide) (by decide)
  rw [h]
  decide

/- ### C1: get_free_shuttle -/

/-- C1.  Every call of `get_free_shuttle` raises: its first comparison
evaluates `ShuttleCommand.HOME.value` on the command CLASS imported into
shuttle_manager.py, which has no attribute `HOME`, so Python raises
`AttributeError` for every input instead of returning a selection.  (The
spec notes the intent was clearly `ShuttleCommandEnum.HOME`.) -/
theorem getFreeShuttle_always_raises
    (shuttles : List (String × ShuttleState))
    (stockToShuttle : List (String × List String)) (stock : String)
    (cellId command externalId : Option String) :
    getFreeShuttle shuttles stockToShuttle stock cellId command externalId =
      Except.error
        "AttributeError: type object ShuttleCommand has no attribute HOME" := by
  rfl

/- ### C2: submission against a full queue -/

/-- C2.  A non-fast-path command (priority > 4, not HOME) submitted while
the per-shuttle queue is full does NOT fail immediately: the
`await queue.put(...)` of `send_command` suspends until a slot frees
(`asyncio.QueueFull` is only raised by `put_nowait`), so no registry record
with status `failed` / error `Queue full` is created and the dead
`except asyncio.QueueFull` branch never runs. -/
theorem queue_full_submission_blocks (m : MState) (cmd : ShuttleCommand)
    (cid : String) (now : Nat) (ps : Bool)
    (hty : ¬ cmd.command_type = ShuttleCommandEnum.HOME)
    (hpr : 4 < cmd.priority)
    (hfull : m.maxsize ≤ m.queue.length) :
    managerSendCommand m cmd cid now ps = SubmitResult.blocked := by
  unfold managerSendCommand
  rw [if_neg hty, if_neg (by omega), if_neg (by omega)]

/-- Witness for C2: a queue of capacity two already holding two FIFO
entries blocks a third FIFO submission. -/
theorem queue_full_submission_blocks_witness :
    managerSendCommand
      { queue :=
          [(9, "a", ShuttleCommand.make .FIFO "s1" none none none none none none),
           (9, "b", ShuttleCommand.make .FIFO "s1" none none none none none none)],
        registry := [], maxsize := 2 }
      (ShuttleCommand.make .FIFO "s1" (some "7") none none none none none)
      "c" 3 true = SubmitResult.blocked := by
  exact queue_full_submission_blocks _ _ _ _ _ (by decide) (by decide)
    (by decide)

/- ### C6: transport errors on the outbound write -/

/-- The concrete run used to refute the teardown clause of C6: a connected
client sending `PALLET_IN-A1` whose `drain()` times out. -/
def timeoutRun : Bool × ClientState :=
  clientSendCommand { state := initState "s1" 0, connected := true }
    (ShuttleCommand.make .PALLET_IN "s1" (some "A1") none none none none none)
    7 .ok .ok .timeout

/-- C6 counterexample.  On a write timeout (`SEND_TIMEOUT`) the call
returns failure, the state goes to ERROR with `error_code = SEND_TIMEOUT`,
but the connection is NOT torn down: `connected` remains true, so a
subsequent submission reuses the link instead of redialling - while the
claim asserts the connection is torn down for SEND_TIMEOUT as well. -/
theorem send_timeout_no_teardown_counterexample :
    timeoutRun.1 = false ∧
    timeoutRun.2.state.status = ShuttleStatus.ERROR ∧
    timeoutRun.2.state.error_code = some "SEND_TIMEOUT" ∧
    timeoutRun.2.connected = true := by
  decide

/-- C6 (amended).  For a connected client: a write timeout returns failure,
sets status ERROR and `error_code = "SEND_TIMEOUT"`, and leaves the link
up; any other write failure returns failure, sets status ERROR and
`error_code = "SEND_ERROR: ..."`, and tears the link down (so a subsequent
submission redials); a successful write returns success, stamps
`last_command` and `last_command_time`, and sets status BUSY unless the
command is MRCD. -/
theorem send_command_write_outcomes (c : ClientState) (cmd : ShuttleCommand)
    (now : Nat) (co : ConnectOutcome) (pw : WriteOutcome)
    (h : c.connected = true) :
    (clientSendCommand c cmd now co pw .timeout =
      (false, { c with state := errState c.state "SEND_TIMEOUT" })) ∧
    (∀ msg, clientSendCommand c cmd now co pw (.err msg) =
      (false, { c with
                connected := false
                state := errState c.state ("SEND_ERROR: " ++ msg) })) ∧
    (clientSendCommand c cmd now co pw .ok =
      (true, { c with state :=
        (if cmd.command_type ≠ ShuttleCommandEnum.MRCD then
          { c.state with
            last_command := some cmd
            last_command_time := some now
            status := .BUSY }
         else
          { c.state with
            last_command := some cmd
            last_command_time := some now }) })) := by
  refine ⟨?_, ?_, ?_⟩
  · simp [clientSendCommand, writeStep, h]
  · intro msg
    simp [clientSendCommand, writeStep, h]
  · by_cases hm : cmd.command_type = ShuttleCommandEnum.MRCD <;>
      simp [clientSendCommand, writeStep, h, hm]

/-- Witness for C6 at a concrete connected client: the generic write error
tears the link down, and a successful PALLET_IN write sets BUSY. -/
theorem send_command_write_outcomes_witness :
    (clientSendCommand { state := initState "s1" 0, connected := true }
      (ShuttleCommand.make .PALLET_IN "s1" (some "A1") none none none none
        none) 7 .ok .ok (.err "boom")).2.connected = false ∧
    (clientSendCommand { state := initState "s1" 0, connected := true }
      (ShuttleCommand.make .PALLET_IN "s1" (some "A1") none none none none
        none) 7 .ok .ok .ok).2.state.status = ShuttleStatus.BUSY := by
  constructor
  · rw [(send_command_write_outcomes
      { state := initState "s1" 0, connected := true }
      (ShuttleCommand.make .PALLET_IN "s1" (some "A1") none none none none
        none) 7 .ok .ok rfl).2.1 "boom"]
  · rw [(send_command_write_outcomes
      { state := initState "s1" 0, connected := true }
      (ShuttleCommand.make .PALLET_IN "s1" (some "A1") none none none none
        none) 7 .ok .ok rfl).2.2]
    decide

/- ### C9: connection acquisition -/

/-- C9.  If both registry maps already hold the shuttle ID, `get_connection`
returns the registered pair without dialling and leaves the state
untouched; if the ID is unregistered and not mid-dial and the dial fails,
the error propagates and afterwards the registry still holds no connection
entry for that ID, so a later acquisition redials. -/
theorem getConnection_spec (st : CMState) (sid : String)
    (dial : Except String (Nat × Nat)) (now : Nat) :
    (∀ r w, alGet st.readers sid = some r → alGet st.connections sid = some w →
      getConnection st sid dial now = (.ok r w, st, false)) ∧
    (∀ e, alGet st.readers sid = none → alGet st.connections sid = none →
      sid ∉ st.connecting → dial = .error e →
      getConnection st sid dial now = (.failed e, st, true) ∧
      alGet (getConnection st sid dial now).2.1.connections sid = none ∧
      alGet (getConnection st sid dial now).2.1.readers sid = none) := by
  constructor
  · intro r w hr hw
    simp [getConnection, hr, hw]
  · intro e hr hw hc hd
    simp [getConnection, hr, hw, hc, hd]

/-- Witness for C9: a registered ID is returned without dialling; an
unregistered ID whose dial is refused leaves no registry entry behind. -/
theorem getConnection_spec_witness :
    getConnection
      { connections := [("s1", 5)], readers := [("s1", 6)],
        connection_times := [("s1", 0)], connecting := [] }
      "s1" (.error "CONNECT_REFUSED") 9 =
      (.ok 6 5,
       { connections := [("s1", 5)], readers := [("s1", 6)],
         connection_times := [("s1", 0)], connecting := [] }, false) ∧
    getConnection
      { connections := [("s1", 5)], readers := [("s1", 6)],
        connection_times := [("s1", 0)], connecting := [] }
      "s2" (.error "CONNECT_REFUSED") 9 =
      (.failed "CONNECT_REFUSED",
       { connections := [("s1", 5)], readers := [("s1", 6)],
         connection_times := [("s1", 0)], connecting := [] }, true) := by
  constructor
  · exact (getConnection_spec _ "s1" _ 9).1 6 5 (by decide) (by decide)
  · exact ((getConnection_spec _ "s2" _ 9).2 "CONNECT_REFUSED" (by decide)
      (by decide) (by decide) rfl).1

/- ### C3: state serialization round trip -/

/-- A command survives `to_dict` / `from_dict` unchanged: member names
equal member values, so the name lookup restores the type, and the stored
priority is passed back into the constructor. -/
theorem command_dict_round_trip (c : ShuttleCommand) :
    ShuttleCommand.from_dict (ShuttleCommand.to_dict c) = some c := by
  obtain ⟨ct, sid, par, ext, pri, doc, cell, stock⟩ := c
  cases ct <;> rfl

/-- C3 counterexample.  The state reached from the initial state by the
single inbound line `LOCATION=CELL:A1` carries `current_cell = some "A1"`,
but `to_dict` does not serialize `current_cell`, so the round trip differs
from the original state. -/
theorem state_round_trip_counterexample :
    (processFromListener (initState "s1" 0) "LOCATION=CELL:A1" 1).1.current_cell
        = some "A1" ∧
    ShuttleState.from_dict (ShuttleState.to_dict
        (processFromListener (initState "s1" 0) "LOCATION=CELL:A1" 1).1) ≠
      some (processFromListener (initState "s1" 0) "LOCATION=CELL:A1" 1).1 := by
  decide

/-- C3 (amended).  For every shuttle state - in particular every state
reachable by the inbound-message rules - serializing with `to_dict` and
deserializing with `from_dict` restores every field except `current_cell`,
which always comes back as `none` because `to_dict` omits it; the round
trip is the identity exactly on states whose `current_cell` is `none`. -/
theorem state_dict_round_trip (s : ShuttleState) :
    ShuttleState.from_dict (ShuttleState.to_dict s) =
      some { s with current_cell := none } := by
  obtain ⟨sid, st, cc, lc, lct, lm, ls, bl, ld, pcd, wdh, wlh, ec, eid, dt,
    cid, sn, ccell⟩ := s
  cases lc with
  | none => cases st <;> rfl
  | some c =>
    cases st <;>
      simp [ShuttleState.to_dict, ShuttleState.from_dict,
        command_dict_round_trip, ShuttleStatus.value, ShuttleStatus.ofValue]

/- ### C7: cancellation -/

theorem queuePut_perm (q : List QueueEntry) (e : QueueEntry) :
    (queuePut q e).Perm (e :: q) := by
  induction q with
  | nil => exact List.Perm.refl _
  | cons x xs ih =>
    unfold queuePut
    split
    · exact (ih.cons x).trans (List.Perm.swap e x xs)
    · exact List.Perm.refl _

theorem foldl_queuePut_perm (l : List QueueEntry) :
    ∀ acc, (l.foldl queuePut acc).Perm (acc ++ l) := by
  induction l with
  | nil => intro acc; simp
  | cons x xs ih =>
    intro acc
    simp only [List.foldl_cons]
    refine ((ih (queuePut acc x)).trans ?_)
    refine (List.Perm.append_right xs (queuePut_perm acc x)).trans ?_
    exact List.perm_middle.symm

theorem foldl_skip_perm (cid : String) (l : List QueueEntry) :
    ∀ acc, (l.foldl
        (fun a e => if e.2.1 = cid then a else queuePut a e) acc).Perm
      (acc ++ l.filter (fun e => e.2.1 ≠ cid)) := by
  induction l with
  | nil => intro acc; simp
  | cons x xs ih =>
    intro acc
    simp only [List.foldl_cons]
    by_cases hx : x.2.1 = cid
    · rw [if_pos hx]
      refine (ih acc).trans ?_
      have hf : (x :: xs).filter (fun e => e.2.1 ≠ cid) =
          xs.filter (fun e => e.2.1 ≠ cid) := by
        simp [List.filter_cons, hx]
      rw [hf]
    · rw [if_neg hx]
      refine (ih (queuePut acc x)).trans ?_
      have hf : (x :: xs).filter (fun e => e.2.1 ≠ cid) =
          x :: xs.filter (fun e => e.2.1 ≠ cid) := by
        simp [List.filter_cons, hx]
      rw [hf]
      refine (List.Perm.append_right _ (queuePut_perm acc x)).trans ?_
      exact List.perm_middle.symm

/-- The two drain loops of `cancel_command` leave exactly the entries whose
command ID differs from the cancelled one (as a multiset). -/
theorem cancelDrain_perm (q : List QueueEntry) (cid : String) :
    (cancelDrain q cid).Perm (q.filter (fun e => e.2.1 ≠ cid)) := by
  unfold cancelDrain
  refine (foldl_queuePut_perm _ []).trans ?_
  simpa using foldl_skip_perm cid q []

theorem cancelDrain_not_mem (q : List QueueEntry) (cid : String) :
    ∀ e ∈ cancelDrain q cid, e.2.1 ≠ cid := by
  intro e he
  have hm := (cancelDrain_perm q cid).mem_iff.mp he
  have := List.of_mem_filter hm
  simpa using this

theorem alGet_regUpdate (reg : List (String × RegRecord)) (cid : String)
    (f : RegRecord → RegRecord) :
    alGet (regUpdate reg cid f) cid = (alGet reg cid).map f := by
  induction reg with
  | nil => rfl
  | cons p rest ih =>
    obtain ⟨k, v⟩ := p
    by_cases hk : k = cid
    · subst hk
      have hpair : (if k = k then (k, f v) else (k, v)) = (k, f v) :=
        if_pos rfl
      simp only [regUpdate, hpair]
      simp [alGet]
    · simp only [regUpdate, if_neg hk]
      simp only [alGet, if_neg hk]
      exact ih

/-- A worker pass never dispatches a command ID that is not in the queue,
and only ever shrinks the queue, so an ID absent from the queue is never
dispatched by any number of worker passes. -/
theorem workerRun_no_dispatch (ps : Bool) (now : Nat) (cid : String) :
    ∀ (n : Nat) (m : MState), cid ∉ m.queue.map (fun e => e.2.1) →
      cid ∉ (workerRun n m ps now).1 := by
  intro n
  induction n with
  | zero => intro m _; simp [workerRun]
  | succ k ih =>
    intro m h
    unfold workerRun
    cases hq : m.queue with
    | nil =>
      simp only [workerStep, hq, List.nil_append]
      exact ih m h
    | cons e rest =>
      rw [hq, List.map_cons] at h
      have he1 : ¬ cid = e.2.1 := fun hcontra => h (by simp [hcontra])
      have he2 : cid ∉ rest.map (fun e => e.2.1) := fun hcontra =>
        h (List.mem_cons_of_mem _ hcontra)
      simp only [workerStep, hq]
      cases halg : alGet m.registry e.2.1 with
      | some r =>
        by_cases hc : r.status = "cancelled"
        · simp only [hc, if_true, List.nil_append]
          exact ih _ he2
        · simp only [hc, if_false, List.cons_append, List.nil_append]
          intro hmem
          rcases List.mem_cons.mp hmem with h1 | h1
          · exact he1 h1
          · exact ih _ he2 h1
      | none =>
        simp only [List.cons_append, List.nil_append]
        intro hmem
        rcases List.mem_cons.mp hmem with h1 | h1
        · exact he1 h1
        · exact ih _ he2 h1

/-- C7.  Cancelling a command whose registry record is missing, or whose
status is not `queued`, returns false and changes nothing.  Cancelling a
`queued` command returns true, removes exactly its entries from the queue
(all other queued entries stay, as a multiset), marks the record
`cancelled` with a `cancelled_at` stamp, and the command is never
dispatched by any later worker passes. -/
theorem cancel_command_spec (m : MState) (cid : String) (now : Nat) :
    (alGet m.registry cid = none →
      managerCancelCommand m cid now = (false, m)) ∧
    (∀ r, alGet m.registry cid = some r → r.status ≠ "queued" →
      managerCancelCommand m cid now = (false, m)) ∧
    (∀ r, alGet m.registry cid = some r → r.status = "queued" →
      (managerCancelCommand m cid now).1 = true ∧
      ((managerCancelCommand m cid now).2.queue).Perm
        (m.queue.filter (fun e => e.2.1 ≠ cid)) ∧
      (∀ e ∈ (managerCancelCommand m cid now).2.queue, e.2.1 ≠ cid) ∧
      alGet (managerCancelCommand m cid now).2.registry cid =
        some { r with status := "cancelled", cancelled_at := some now } ∧
      (∀ n ps now2,
        cid ∉ (workerRun n (managerCancelCommand m cid now).2 ps now2).1)) := by
  refine ⟨?_, ?_, ?_⟩
  · intro h
    simp [managerCancelCommand, h]
  · intro r hr hs
    simp [managerCancelCommand, hr, hs]
  · intro r hr hs
    have hres : managerCancelCommand m cid now =
        (true, { m with
                 queue := cancelDrain m.queue cid
                 registry := regUpdate m.registry cid (fun rec =>
                   { rec with status := "cancelled",
                              cancelled_at := some now }) }) := by
      simp [managerCancelCommand, hr, hs]
    rw [hres]
    refine ⟨rfl, cancelDrain_perm m.queue cid, cancelDrain_not_mem m.queue cid,
      ?_, ?_⟩
    · rw [alGet_regUpdate, hr]
      rfl
    · intro n ps now2
      refine workerRun_no_dispatch ps now2 cid n _ ?_
      intro hmem
      obtain ⟨e, hel, hee⟩ := List.mem_map.mp hmem
      exact cancelDrain_not_mem m.queue cid e hel hee

/-- The two queued commands of the cancellation witness scenario. -/
def cancelCmdA : ShuttleCommand :=
  ShuttleCommand.make .PALLET_IN "s1" (some "A1") none none none none none

def cancelCmdB : ShuttleCommand :=
  ShuttleCommand.make .FIFO "s1" (some "3") none none none none none

/-- Manager state of the cancellation witness: two queued commands. -/
def cancelM0 : MState :=
  { queue := [(6, "k1", cancelCmdA), (9, "k2", cancelCmdB)],
    registry :=
      [("k1", { command := cancelCmdA, status := "queued", timestamp := 0 }),
       ("k2", { command := cancelCmdB, status := "queued", timestamp := 1 })],
    maxsize := 10 }

/-- Witness for C7: cancelling queued `k1` returns true, marks it
cancelled, keeps `k2` in the queue, and three subsequent worker passes
never dispatch `k1`; cancelling it again (now in status `cancelled`)
returns false and changes nothing. -/
theorem cancel_command_spec_witness :
    (managerCancelCommand cancelM0 "k1" 5).1 = true ∧
    alGet (managerCancelCommand cancelM0 "k1" 5).2.registry "k1" =
      some { command := cancelCmdA, status := "cancelled", timestamp := 0,
             cancelled_at := some 5 } ∧
    (∀ e ∈ (managerCancelCommand cancelM0 "k1" 5).2.queue, e.2.1 ≠ "k1") ∧
    ("k1" ∉ (workerRun 3 (managerCancelCommand cancelM0 "k1" 5).2 true 9).1) ∧
    managerCancelCommand (managerCancelCommand cancelM0 "k1" 5).2 "k1" 6 =
      (false, (managerCancelCommand cancelM0 "k1" 5).2) := by
  have h3 := (cancel_command_spec cancelM0 "k1" 5).2.2
    { command := cancelCmdA, status := "queued", timestamp := 0 } rfl rfl
  refine ⟨h3.1, h3.2.2.2.1, h3.2.2.1, h3.2.2.2.2 3 true 9, ?_⟩
  refine (cancel_command_spec (managerCancelCommand cancelM0 "k1" 5).2
    "k1" 6).2.1
    { command := cancelCmdA, status := "cancelled", timestamp := 0,
      cancelled_at := some 5 } h3.2.2.2.1 (by decide)

end ShuttleBroker
